import Mathlib

/-!
Verification of the fsl-lwc-components repository: a shallow embedding of
the Lightning Web Components' presentation logic, and theorems checking the
natural-language specification against it.

Embedded pieces:
* the service-appointment status workflow (`STATUS_CONFIG`, `statusConfig`,
  `nextStatusOptions`, `canUpdateStatus`, `showBlockButton`,
  `handleConfirmBlock`) from the SA status-update component;
* the telemetry threshold classifier (`processAttribute`) and the hardcoded
  Haven data-center asset set from the building asset map component;
* the step machine and the event traces of the CPE provisioning wizard;
* the effect lists of the error-handling paths of the remote-call handlers.

JavaScript numbers appearing in telemetry data are embedded as rationals
(`ℚ`); every decimal literal in the source is exactly representable.
JS objects used as maps are embedded as association lists.
-/

/-! ### Status workflow (SA status-update component) -/

/-- One value of the `STATUS_CONFIG` object: allowed next statuses, badge
color and icon. -/
structure StatusCfg where
  next : List String
  color : String
  icon : String
deriving DecidableEq, Repr

/-- The `STATUS_CONFIG['None']` entry, also the fallback configuration. -/
def noneCfg : StatusCfg := ⟨["Scheduled"], "#706e6b", "utility:clock"⟩

/-- The static `STATUS_CONFIG` object, as an association list from status
name to configuration. -/
def STATUS_CONFIG : List (String × StatusCfg) :=
  [ ("None", noneCfg),
    ("Scheduled", ⟨["Dispatched", "Travel"], "#0070d2", "utility:event"⟩),
    ("Dispatched", ⟨["Travel", "In Progress"], "#ff9a3c", "utility:routing_offline"⟩),
    ("Travel", ⟨["In Progress"], "#1589ee", "utility:travel_and_places"⟩),
    ("In Progress", ⟨["Completed", "Cannot Complete"], "#04844b", "utility:activity"⟩),
    ("Completed", ⟨[], "#2e844a", "utility:check"⟩),
    ("Cannot Complete", ⟨[], "#c23934", "utility:close"⟩),
    ("Canceled", ⟨[], "#706e6b", "utility:ban"⟩) ]

/-- `get statusConfig()`: `STATUS_CONFIG[this.currentStatus] || STATUS_CONFIG['None']`. -/
def statusConfig (current : String) : StatusCfg :=
  (STATUS_CONFIG.lookup current).getD noneCfg

/-- One entry of `get nextStatusOptions()`. -/
structure NextOption where
  label : String
  value : String
  variant : String
  icon : String
deriving DecidableEq, Repr

/-- `get nextStatusOptions()`: maps `config.next` to button descriptors. -/
def nextStatusOptions (current : String) : List NextOption :=
  (statusConfig current).next.map fun status =>
    { label := status
      value := status
      variant := if status = "Completed" then "success" else "neutral"
      icon := ((STATUS_CONFIG.lookup status).map StatusCfg.icon).getD "utility:forward" }

/-- `get canUpdateStatus()`: `this.statusConfig.next.length > 0`. -/
def canUpdateStatus (current : String) : Bool :=
  (statusConfig current).next.length > 0

/-- `get showBlockButton()`: current status is none of the three terminal
statuses. -/
def showBlockButton (current : String) : Bool :=
  current != "Cannot Complete" && current != "Completed" && current != "Canceled"

/-! ### Telemetry threshold classifier (building asset map component) -/

/-- One telemetry attribute of an asset: `name`, `value`, thresholds, unit
and category, as in the hardcoded data set. -/
structure Attr where
  name : String
  value : ℚ
  minThreshold : ℚ
  maxThreshold : ℚ
  unit : String
  category : String
deriving DecidableEq, Repr

/-- The classification fields `processAttribute(attr)` adds to an
attribute. -/
structure ProcessedAttr where
  status : String
  statusClass : String
  statusIcon : String
  percentage : ℚ
deriving DecidableEq, Repr

/-- `processAttribute(attr)` of the building asset map component: status is
`critical` when `value < minThreshold`, else `warning` when
`value > maxThreshold`, else `normal`; the gauge percentage is the position
of the value in the threshold range, clamped to `[0, 100]`. -/
def processAttribute (attr : Attr) : ProcessedAttr :=
  if attr.value < attr.minThreshold then
    { status := "critical", statusClass := "attr-critical", statusIcon := "utility:error",
      percentage := max 0 (min 100
        ((attr.value - attr.minThreshold) / (attr.maxThreshold - attr.minThreshold) * 100)) }
  else if attr.value > attr.maxThreshold then
    { status := "warning", statusClass := "attr-warning", statusIcon := "utility:warning",
      percentage := max 0 (min 100
        ((attr.value - attr.minThreshold) / (attr.maxThreshold - attr.minThreshold) * 100)) }
  else
    { status := "normal", statusClass := "attr-normal", statusIcon := "utility:success",
      percentage := max 0 (min 100
        ((attr.value - attr.minThreshold) / (attr.maxThreshold - attr.minThreshold) * 100)) }

/-! ### Hardcoded Haven data-center asset set (building asset map) -/

/-- One asset of the hardcoded data set: identifier, name, type, the
hardcoded `status` field, and the telemetry attributes.  Display-only
fields (room, rack, serial number, icon, GIS coordinates, …) are not part
of any claim and are omitted. -/
structure Asset where
  id : String
  name : String
  type : String
  status : String
  attributes : List Attr
deriving DecidableEq, Repr

/-- The asset data set assigned by `loadHavenDataCenterAssets()`, flattened
over the four floors (floor grouping carries no claim-relevant data). -/
def havenAssets : List Asset :=
  [ -- Floor 1 - Network Core
    { id := "haven-olt-001", name := "OLT-A01-001", type := "Optical Line Terminal",
      status := "Active",
      attributes :=
        [ ⟨"Temperature", 42, 10, 65, "°C", "Environmental"⟩,
          ⟨"CPU Utilization", 38, 0, 85, "%", "Performance"⟩,
          ⟨"Memory Usage", 52, 0, 90, "%", "Performance"⟩,
          ⟨"Optical Power Rx", -18.5, -28, -8, "dBm", "Signal"⟩,
          ⟨"Active PON Ports", 14, 1, 16, "ports", "Connectivity"⟩,
          ⟨"Uptime", 99.98, 99, 100, "%", "Availability"⟩ ] },
    { id := "haven-olt-002", name := "OLT-A01-002", type := "Optical Line Terminal",
      status := "Warning",
      attributes :=
        [ ⟨"Temperature", 72, 10, 65, "°C", "Environmental"⟩,
          ⟨"CPU Utilization", 92, 0, 85, "%", "Performance"⟩,
          ⟨"Memory Usage", 88, 0, 90, "%", "Performance"⟩,
          ⟨"Optical Power Rx", -26.5, -28, -8, "dBm", "Signal"⟩,
          ⟨"Active PON Ports", 16, 1, 16, "ports", "Connectivity"⟩,
          ⟨"Uptime", 98.2, 99, 100, "%", "Availability"⟩ ] },
    { id := "sea-002", name := "CORE-SW-001", type := "Core Switch",
      status := "Active",
      attributes :=
        [ ⟨"Temperature", 38, 10, 70, "°C", "Environmental"⟩,
          ⟨"Throughput", 847, 0, 1000, "Gbps", "Performance"⟩,
          ⟨"Packet Loss", 0.001, 0, 0.1, "%", "Performance"⟩,
          ⟨"Active Ports", 42, 1, 48, "ports", "Connectivity"⟩,
          ⟨"Fan Speed", 4200, 2000, 8000, "RPM", "Environmental"⟩,
          ⟨"Power Draw", 2.8, 0, 4.5, "kW", "Power"⟩ ] },
    { id := "sea-003", name := "EDGE-RTR-001", type := "Edge Router",
      status := "Active",
      attributes :=
        [ ⟨"Temperature", 45, 10, 65, "°C", "Environmental"⟩,
          ⟨"BGP Sessions", 28, 1, 50, "sessions", "Connectivity"⟩,
          ⟨"Route Table Size", 892000, 0, 1000000, "routes", "Performance"⟩,
          ⟨"CPU Utilization", 24, 0, 80, "%", "Performance"⟩,
          ⟨"Interface Errors", 0, 0, 100, "errors/hr", "Health"⟩,
          ⟨"Latency", 1.2, 0, 10, "ms", "Performance"⟩ ] },
    { id := "sea-004", name := "FDP-SEA-001", type := "Fiber Distribution Panel",
      status := "Active",
      attributes :=
        [ ⟨"Connected Fibers", 144, 1, 288, "strands", "Connectivity"⟩,
          ⟨"Avg Insertion Loss", 0.18, 0, 0.5, "dB", "Signal"⟩,
          ⟨"Temperature", 22, 15, 35, "°C", "Environmental"⟩,
          ⟨"Humidity", 42, 20, 60, "%", "Environmental"⟩ ] },
    -- Floor 2 - Transport and DWDM
    { id := "sea-005", name := "DWDM-SEA-001", type := "DWDM System",
      status := "Active",
      attributes :=
        [ ⟨"Active Wavelengths", 80, 1, 96, "λ", "Capacity"⟩,
          ⟨"Total Bandwidth", 9.6, 0, 12, "Tbps", "Performance"⟩,
          ⟨"OSNR", 28, 18, 40, "dB", "Signal"⟩,
          ⟨"Amplifier Temp", 35, 10, 50, "°C", "Environmental"⟩,
          ⟨"Laser Bias Current", 42, 20, 80, "mA", "Health"⟩,
          ⟨"Chromatic Dispersion", 850, 0, 1500, "ps/nm", "Signal"⟩ ] },
    { id := "sea-006", name := "ROADM-SEA-001", type := "ROADM Node",
      status := "Active",
      attributes :=
        [ ⟨"Add/Drop Channels", 16, 0, 20, "channels", "Capacity"⟩,
          ⟨"Express Channels", 64, 0, 80, "channels", "Capacity"⟩,
          ⟨"WSS Insertion Loss", 5.2, 0, 8, "dB", "Signal"⟩,
          ⟨"Power Consumption", 1.8, 0, 3, "kW", "Power"⟩,
          ⟨"Temperature", 32, 10, 45, "°C", "Environmental"⟩ ] },
    { id := "sea-007", name := "OTN-SW-001", type := "OTN Switch",
      status := "Warning",
      attributes :=
        [ ⟨"Temperature", 68, 10, 65, "°C", "Environmental"⟩,
          ⟨"Fan Status", 3, 4, 6, "fans OK", "Health"⟩,
          ⟨"CPU Utilization", 78, 0, 85, "%", "Performance"⟩,
          ⟨"FEC Corrections", 245, 0, 100, "errors/min", "Health"⟩,
          ⟨"Active ODU Clients", 42, 0, 80, "clients", "Capacity"⟩,
          ⟨"Power Draw", 4.2, 0, 5, "kW", "Power"⟩ ] },
    -- Floor 3 - Compute and Storage
    { id := "sea-008", name := "BLADE-SEA-001", type := "Blade Chassis",
      status := "Active",
      attributes :=
        [ ⟨"Active Blades", 7, 1, 8, "blades", "Capacity"⟩,
          ⟨"Avg CPU Temp", 58, 10, 85, "°C", "Environmental"⟩,
          ⟨"Total vCPUs", 448, 0, 512, "cores", "Capacity"⟩,
          ⟨"Memory Allocated", 2.8, 0, 4, "TB", "Capacity"⟩,
          ⟨"Network I/O", 185, 0, 400, "Gbps", "Performance"⟩,
          ⟨"Power Draw", 8.5, 0, 12, "kW", "Power"⟩ ] },
    { id := "sea-009", name := "STORAGE-SEA-001", type := "Storage Array",
      status := "Active",
      attributes :=
        [ ⟨"Capacity Used", 72, 0, 85, "%", "Capacity"⟩,
          ⟨"IOPS", 485000, 0, 1000000, "ops/s", "Performance"⟩,
          ⟨"Latency", 0.4, 0, 2, "ms", "Performance"⟩,
          ⟨"Throughput", 18.5, 0, 25, "GB/s", "Performance"⟩,
          ⟨"Drive Health", 100, 90, 100, "%", "Health"⟩,
          ⟨"Temperature", 28, 15, 40, "°C", "Environmental"⟩ ] },
    { id := "sea-010", name := "BACKUP-SEA-001", type := "Backup Appliance",
      status := "Active",
      attributes :=
        [ ⟨"Backup Success Rate", 99.8, 98, 100, "%", "Health"⟩,
          ⟨"Dedup Ratio", 4.2, 2, 10, ":1", "Efficiency"⟩,
          ⟨"Repository Used", 68, 0, 90, "%", "Capacity"⟩,
          ⟨"Jobs Running", 3, 0, 12, "jobs", "Performance"⟩,
          ⟨"Last Backup Age", 2.5, 0, 24, "hours", "Health"⟩ ] },
    -- Floor 4 - Power and Cooling
    { id := "haven-ups-001", name := "UPS-A01-001", type := "UPS System",
      status := "Warning",
      attributes :=
        [ ⟨"Load", 62, 0, 80, "%", "Capacity"⟩,
          ⟨"Battery Health", 68, 70, 100, "%", "Health"⟩,
          ⟨"Charge Cycles", 847, 0, 850, "cycles", "Health"⟩,
          ⟨"Input Voltage", 478, 456, 504, "V", "Power"⟩,
          ⟨"Output Voltage", 480, 470, 490, "V", "Power"⟩,
          ⟨"Battery Temp", 32, 15, 35, "°C", "Environmental"⟩,
          ⟨"Runtime Remaining", 12, 10, 60, "min", "Health"⟩ ] },
    { id := "sea-012", name := "PDU-SEA-001", type := "Power Distribution",
      status := "Active",
      attributes :=
        [ ⟨"Total Load", 285, 0, 400, "kW", "Capacity"⟩,
          ⟨"Phase A Current", 198, 0, 300, "A", "Power"⟩,
          ⟨"Phase B Current", 205, 0, 300, "A", "Power"⟩,
          ⟨"Phase C Current", 192, 0, 300, "A", "Power"⟩,
          ⟨"Power Factor", 0.95, 0.85, 1, "", "Efficiency"⟩,
          ⟨"Breaker Trips", 0, 0, 1, "events", "Health"⟩ ] },
    { id := "sea-013", name := "CRAC-SEA-001", type := "CRAC Unit",
      status := "Warning",
      attributes :=
        [ ⟨"Supply Air Temp", 19, 15, 22, "°C", "Environmental"⟩,
          ⟨"Return Air Temp", 32, 20, 30, "°C", "Environmental"⟩,
          ⟨"Humidity", 58, 40, 55, "%", "Environmental"⟩,
          ⟨"Compressor Status", 1, 2, 2, "active", "Health"⟩,
          ⟨"Refrigerant Pressure", 285, 250, 350, "PSI", "Health"⟩,
          ⟨"Airflow", 8500, 8000, 12000, "CFM", "Performance"⟩ ] },
    { id := "sea-014", name := "GEN-SEA-001", type := "Diesel Generator",
      status := "Active",
      attributes :=
        [ ⟨"Fuel Level", 85, 25, 100, "%", "Capacity"⟩,
          ⟨"Battery Voltage", 26.4, 24, 28, "V", "Health"⟩,
          ⟨"Coolant Temp", 45, 30, 95, "°C", "Environmental"⟩,
          ⟨"Oil Pressure", 62, 40, 80, "PSI", "Health"⟩,
          ⟨"Run Hours", 142, 0, 500, "hours", "Maintenance"⟩,
          ⟨"Last Test", 3, 0, 30, "days ago", "Maintenance"⟩ ] } ]

/-- `asset.warningAttributes`: the attributes whose processed status is
`warning` or `critical`. -/
def warningAttributes (a : Asset) : List Attr :=
  a.attributes.filter fun t =>
    (processAttribute t).status == "warning" || (processAttribute t).status == "critical"

/-- `asset.hasWarnings`: `warningAttributes.length > 0`. -/
def hasWarnings (a : Asset) : Bool :=
  (warningAttributes a).length > 0

/-- `handleAddInspectionWorkPlan()` returns immediately unless an asset is
selected and it has warnings; this flag is whether the handler proceeds
past its guard. -/
def addInspectionWorkPlanProceeds (selected : Option Asset) : Bool :=
  match selected with
  | none => false
  | some a => hasWarnings a

/-! ### Spec-side classifier (predictive maintenance component) -/

/-- Modelled from the spec: the Apex controller
`PredictiveMaintenanceController.getPredictiveData`, which computes each
telemetry reading's `status` field server-side, is not part of the
repository sources; the spec says the status is `critical` if value < min,
`warning` if value > max, else `normal`. -/
def specReadingStatus (value minT maxT : ℚ) : String :=
  if value < minT then "critical"
  else if value > maxT then "warning"
  else "normal"

/-- `getReadingStatusLabel(status)` of the predictive maintenance
component. -/
def getReadingStatusLabel (status : String) : String :=
  if status = "critical" then "OUT OF THRESHOLD"
  else if status = "warning" then "NEAR THRESHOLD"
  else "WITHIN THRESHOLD"

/-- `getReadingStatusClass(status)` of the predictive maintenance
component. -/
def getReadingStatusClass (status : String) : String :=
  if status = "critical" then "reading-status critical"
  else if status = "warning" then "reading-status warning"
  else "reading-status normal"

/-! ### Status workflow transition system (SA status-update component) -/

/-- The status names configured in `STATUS_CONFIG`. -/
def configuredStatuses : List String :=
  ["None", "Scheduled", "Dispatched", "Travel", "In Progress",
   "Completed", "Cannot Complete", "Canceled"]

/-- Membership of a transition in the static table: `s'` is listed in the
`next` array of the `STATUS_CONFIG` entry for `s`. -/
def inTable (s s' : String) : Bool :=
  match STATUS_CONFIG.lookup s with
  | some c => c.next.contains s'
  | none => false

/-- One status change the component can perform on the record: either a
next-status button press (`handleStatusUpdate`, whose `data-status` is the
`value` of an offered option), or the block flow (`handleConfirmBlock`,
reachable only while the block button is shown and a nonempty reason is
selected), which writes `Cannot Complete`. -/
inductive SAStep : String → String → Prop where
  | button (s s' : String) :
      s' ∈ (nextStatusOptions s).map NextOption.value → SAStep s s'
  | block (s reason : String) :
      showBlockButton s = true → reason ≠ "" → SAStep s "Cannot Complete"

/-- Statuses reachable by component operations from the default status
`None`. -/
inductive SAReachable : String → Prop where
  | init : SAReachable "None"
  | step {s s' : String} : SAReachable s → SAStep s s' → SAReachable s'

/-! ### CPE provisioning step machine -/

/-- The button handlers of the provisioning wizard that are wired to the
step panels. -/
inductive ProvAction where
  | startProvisioning
  | step2Actions
  | runSignalTest
  | activate
deriving DecidableEq, Repr

/-- The value each handler leaves in `currentStep`: `connectToADAPT` sets
2, `provisionCPE` (at the end of `handleStep2Actions`) sets 3,
`activateService` sets 4; `runSignalTest` does not touch it. -/
def handlerStep : ProvAction → ℕ → ℕ
  | .startProvisioning, _ => 2
  | .step2Actions, _ => 3
  | .runSignalTest, s => s
  | .activate, _ => 4

/-- Modelled from the spec: the component's HTML template, which is not
among the sources, renders each step's action buttons only inside that
step's panel (`isStep1` … `isStep4`), so a handler can only fire while
`currentStep` is at its step. -/
def handlerEnabled : ProvAction → ℕ → Bool
  | .startProvisioning, s => s == 1
  | .step2Actions, s => s == 2
  | .runSignalTest, s => s == 3
  | .activate, s => s == 3

/-- The sequence of `currentStep` values produced by a sequence of handler
invocations; `none` when some handler in the sequence is not reachable
(its button is not rendered at that step). -/
def statesOf : ℕ → List ProvAction → Option (List ℕ)
  | _, [] => some []
  | s, a :: rest =>
    if handlerEnabled a s then
      (statesOf (handlerStep a s) rest).map fun tr => handlerStep a s :: tr
    else none

/-! ### Provisioning wizard event traces (step-2 handler) -/

/-- Observable events of the wizard's async functions, in program order:
`await` sequencing in the single-threaded component makes each function's
trace a contiguous block. -/
inductive PEvent where
  | setProcessing (b : Bool)
  | setStatus (s : String)
  | log (message ty : String)
  | delayMs (n : ℕ)
  | setStep (n : ℕ)
deriving DecidableEq, Repr

/-- The event trace of `validateSerial()`; `serial` is the serial being
validated and `mac` the randomly generated MAC address. -/
def validateSerialTrace (serial mac : String) : List PEvent :=
  [ .setProcessing true,
    .setStatus "Validating...",
    .log ("Validating: " ++ serial) "info",
    .delayMs 2000,
    .setStatus "Validated",
    .log "Serial validated" "success",
    .log ("MAC: " ++ mac) "info",
    .setProcessing false ]

/-- The event trace of `provisionCPE()`. -/
def provisionCPETrace : List PEvent :=
  [ .setProcessing true,
    .setStatus "Provisioning...",
    .log "Provisioning CPE..." "info",
    .delayMs 1000,
    .log "Creating service profile" "info",
    .delayMs 1500,
    .log "Configuring VLAN" "info",
    .delayMs 1000,
    .log "Setting QoS parameters" "info",
    .delayMs 1500,
    .setStatus "Provisioned",
    .log "CPE provisioned" "success",
    .setStep 3,
    .setProcessing false ]

/-- The event trace of `handleStep2Actions()`:
`await validateSerial(); await delay(500); await provisionCPE();`. -/
def handleStep2ActionsTrace (serial mac : String) : List PEvent :=
  validateSerialTrace serial mac ++ PEvent.delayMs 500 :: provisionCPETrace

/-! ### Remote-call error handling (all components) -/

/-- User-visible and console effects emitted by the remote-call handlers.
A caught JS error is embedded as `Except (Option String)`: the `Option
String` is `error.body?.message`. -/
inductive Effect where
  | toast (variant title message : String)
  | consoleError (context : String)
  | remoteCall (name : String)
  | closeModal
deriving DecidableEq, Repr

/-- Whether an effect is a toast notification. -/
def isToast : Effect → Bool
  | .toast _ _ _ => true
  | _ => false

/-- Whether an effect is an error-variant toast. -/
def isErrorToast : Effect → Bool
  | .toast v _ _ => v == "error"
  | _ => false

/-- How many times a remote call of the given name occurs in an effect
list (used to show nothing is retried). -/
def countRemote (name : String) (effs : List Effect) : ℕ :=
  (effs.filter fun e => e == Effect.remoteCall name).length

/-- `loadDependentAppointments()` (SA status-update): calls
`getAppointmentChain`; on failure it only logs to the console. -/
def loadDependentAppointments
    (outcome : Except (Option String) (List String)) : List Effect :=
  Effect.remoteCall "getAppointmentChain" ::
    match outcome with
    | .ok _ => []
    | .error _ => [.consoleError "Error loading dependencies:"]

/-- The `wiredData` wire handler (predictive maintenance): on a wire error
it only logs to the console. -/
def wiredData (outcome : Except (Option String) Unit) : List Effect :=
  match outcome with
  | .ok _ => []
  | .error _ => [.consoleError "Error loading predictive data:"]

/-- The `handleWorkOrderResult` wire handler (order progress mobile): on
GraphQL errors it only logs to the console. -/
def handleWorkOrderResult (outcome : Except (Option String) Unit) : List Effect :=
  match outcome with
  | .ok _ => []
  | .error _ => [.consoleError "GraphQL errors:"]

/-- `updateAppointmentStatus(newStatus)` (SA status-update): one
`updateRecord` call; a success toast on success, an error toast on
failure. -/
def updateAppointmentStatus (newStatus : String)
    (outcome : Except (Option String) Unit) : List Effect :=
  Effect.remoteCall "updateRecord" ::
    match outcome with
    | .ok _ =>
        [.toast "success" "Status Updated"
          ("Appointment status changed to " ++ newStatus)]
    | .error err =>
        [.toast "error" "Error" (err.getD "Failed to update status")]

/-- `handleConfirmBlock()` (SA status-update): after the reason guard, an
`updateRecord` write of `Cannot Complete` followed by the RSO trigger call;
the single catch turns any failure into an error toast.  Returns the
emitted effects and the record's status after the handler, given its
status `recordStatus` before it. -/
def handleConfirmBlock (reason : String) (upd : Except (Option String) Unit)
    (rso : Except (Option String) ℕ) (recordStatus : String) :
    List Effect × String :=
  if reason = "" then
    ([.toast "error" "Error" "Please select a block reason"], recordStatus)
  else
    match upd with
    | .error err =>
        ([.remoteCall "updateRecord",
          .toast "error" "Error" (err.getD "Failed to block appointment")],
         recordStatus)
    | .ok _ =>
        match rso with
        | .error err =>
            ([.remoteCall "updateRecord",
              .remoteCall "triggerRSOForBlockedAppointment",
              .toast "error" "Error" (err.getD "Failed to block appointment")],
             "Cannot Complete")
        | .ok rsoCount =>
            ([.remoteCall "updateRecord",
              .remoteCall "triggerRSOForBlockedAppointment",
              .toast "success" "Appointment Blocked"
                ("RSO triggered for " ++ toString rsoCount ++ " resource(s)"),
              .closeModal],
             "Cannot Complete")

/-- `createWorkPlan()` (predictive maintenance): one
`createPreventiveWorkPlan` call; failure is logged and surfaced as an
error toast. -/
def createWorkPlan (outcome : Except (Option String) String) : List Effect :=
  Effect.remoteCall "createPreventiveWorkPlan" ::
    match outcome with
    | .ok _ =>
        [.toast "success" "Preventive Work Plan Created"
          "A 7-step inspection work plan has been added to the selected work order."]
    | .error err =>
        [.consoleError "Error creating work plan:",
         .toast "error" "Error" (err.getD "Failed to create preventive work plan")]

/-! ### Helper lemmas -/

/-- Looking up a status outside the eight configured ones in
`STATUS_CONFIG` yields nothing. -/
theorem lookup_none_of_unconfigured (s : String) (h : s ∉ configuredStatuses) :
    STATUS_CONFIG.lookup s = none := by
  simp only [configuredStatuses, List.mem_cons, List.not_mem_nil, or_false, not_or] at h
  obtain ⟨h1, h2, h3, h4, h5, h6, h7, h8⟩ := h
  simp [STATUS_CONFIG, List.lookup, beq_eq_false_iff_ne.mpr h1,
    beq_eq_false_iff_ne.mpr h2, beq_eq_false_iff_ne.mpr h3, beq_eq_false_iff_ne.mpr h4,
    beq_eq_false_iff_ne.mpr h5, beq_eq_false_iff_ne.mpr h6, beq_eq_false_iff_ne.mpr h7,
    beq_eq_false_iff_ne.mpr h8]

/-- The `value` fields of the offered options are exactly the configured
`next` list. -/
theorem nextStatusOptions_values (s : String) :
    (nextStatusOptions s).map NextOption.value = (statusConfig s).next := by
  simp only [nextStatusOptions, List.map_map]
  exact List.map_id _

/-- A single component operation keeps the status in the configured
set. -/
theorem sastep_configured {s s' : String} (hstep : SAStep s s')
    (hs : s ∈ configuredStatuses) : s' ∈ configuredStatuses := by
  cases hstep with
  | button _ hmem =>
    have hnext : s' ∈ (statusConfig s).next := by
      rw [← nextStatusOptions_values]; exact hmem
    exact (by decide :
      ∀ t ∈ configuredStatuses, ∀ t' ∈ (statusConfig t).next,
        t' ∈ configuredStatuses) s hs s' hnext
  | block _ _ _ => decide

/-- Component operations never leave the configured status set. -/
theorem reachable_configured {s : String} (h : SAReachable s) :
    s ∈ configuredStatuses := by
  induction h with
  | init => decide
  | step _ hstep ih => exact sastep_configured hstep ih

/-- An enabled provisioning handler moves `currentStep` by zero or one,
never backwards. -/
theorem handlerStep_bound (a : ProvAction) (s : ℕ)
    (h : handlerEnabled a s = true) :
    s ≤ handlerStep a s ∧ handlerStep a s ≤ s + 1 := by
  cases a <;> simp [handlerEnabled] at h <;> simp [handlerStep, h]

/-- Step sequences of enabled provisioning handlers are monotone with unit
increments, from any start. -/
theorem statesOf_chain (acts : List ProvAction) :
    ∀ (s : ℕ) (tr : List ℕ), statesOf s acts = some tr →
      List.Chain' (fun x y => x ≤ y ∧ y ≤ x + 1) (s :: tr) := by
  induction acts with
  | nil =>
    intro s tr h
    simp only [statesOf, Option.some.injEq] at h
    subst h; simp
  | cons a rest ih =>
    intro s tr h
    simp only [statesOf] at h
    by_cases hg : handlerEnabled a s = true
    · rw [if_pos hg] at h
      obtain ⟨tr', htr', rfl⟩ := Option.map_eq_some'.mp h
      exact List.chain'_cons.mpr ⟨handlerStep_bound a s hg, ih _ tr' htr'⟩
    · rw [if_neg hg] at h
      exact absurd h (by simp)

/-! ### Claim theorems -/

/-- C1: for every telemetry attribute processed by the building asset
map's threshold classifier with value and range
[minThreshold, maxThreshold], the resulting status is `critical` iff
value < minThreshold; `warning` iff value > maxThreshold and not
value < minThreshold; and `normal` otherwise. -/
theorem processAttribute_status_trichotomy (a : Attr) :
    ((processAttribute a).status = "critical" ↔ a.value < a.minThreshold) ∧
    ((processAttribute a).status = "warning" ↔
      (a.value > a.maxThreshold ∧ ¬ a.value < a.minThreshold)) ∧
    ((processAttribute a).status = "normal" ↔
      (¬ a.value < a.minThreshold ∧ ¬ a.value > a.maxThreshold)) := by
  unfold processAttribute
  split_ifs with h1 h2 <;> refine ⟨?_, ?_, ?_⟩ <;> simp_all

/-- C2: for every current status, the offered next statuses exactly equal
the static transition table (None → Scheduled; Scheduled → Dispatched,
Travel; Dispatched → Travel, In Progress; Travel → In Progress;
In Progress → Completed, Cannot Complete), the terminal statuses
Completed, Cannot Complete and Canceled offer no options, and
`canUpdateStatus` reflects exactly that. -/
theorem nextStatusOptions_match_table :
    (nextStatusOptions "None").map NextOption.value = ["Scheduled"] ∧
    (nextStatusOptions "Scheduled").map NextOption.value = ["Dispatched", "Travel"] ∧
    (nextStatusOptions "Dispatched").map NextOption.value = ["Travel", "In Progress"] ∧
    (nextStatusOptions "Travel").map NextOption.value = ["In Progress"] ∧
    (nextStatusOptions "In Progress").map NextOption.value = ["Completed", "Cannot Complete"] ∧
    nextStatusOptions "Completed" = [] ∧
    nextStatusOptions "Cannot Complete" = [] ∧
    nextStatusOptions "Canceled" = [] ∧
    canUpdateStatus "Completed" = false ∧
    canUpdateStatus "Cannot Complete" = false ∧
    canUpdateStatus "Canceled" = false := by decide

/-- C3 counterexample: from the reachable status `Scheduled`, the block
flow performs the status change `Scheduled → Cannot Complete`, a
transition absent from the static table (which allows only `Dispatched`
and `Travel` after `Scheduled`). -/
theorem sa_block_step_leaves_table :
    SAReachable "Scheduled" ∧ SAStep "Scheduled" "Cannot Complete" ∧
      inTable "Scheduled" "Cannot Complete" = false :=
  ⟨SAReachable.step SAReachable.init (SAStep.button _ _ (by decide)),
   SAStep.block _ "Other" (by decide) (by decide),
   by decide⟩

/-- C3 amended: every status change the component can perform from a
reachable status either follows the static table or is the block flow,
which jumps to `Cannot Complete` from any non-terminal status. -/
theorem sa_steps_in_table_or_block {s s' : String}
    (hr : SAReachable s) (hstep : SAStep s s') :
    inTable s s' = true ∨ (s' = "Cannot Complete" ∧ showBlockButton s = true) := by
  cases hstep with
  | button _ hmem =>
    left
    have hnext : s' ∈ (statusConfig s).next := by
      rw [← nextStatusOptions_values]; exact hmem
    exact (by decide :
      ∀ t ∈ configuredStatuses, ∀ t' ∈ (statusConfig t).next,
        inTable t t' = true) s (reachable_configured hr) s' hnext
  | block _ hshow _ => exact Or.inr ⟨rfl, hshow⟩

/-- Witness for the amended C3 theorem at the button press
`None → Scheduled`. -/
theorem sa_steps_in_table_or_block_witness :
    inTable "None" "Scheduled" = true ∨
      ("Scheduled" = "Cannot Complete" ∧ showBlockButton "None" = true) :=
  sa_steps_in_table_or_block SAReachable.init (SAStep.button _ _ (by decide))

/-- C4: along every reachable sequence of button-handler invocations from
the initial step 1, `currentStep` never decreases and never increases by
more than one, so it visits 1, 2, 3, 4 in order with no skips. -/
theorem cpe_steps_monotone (acts : List ProvAction) (tr : List ℕ)
    (h : statesOf 1 acts = some tr) :
    List.Chain' (fun x y => x ≤ y ∧ y ≤ x + 1) (1 :: tr) :=
  statesOf_chain acts 1 tr h

/-- Witness for C4 on the full provisioning run. -/
theorem cpe_steps_monotone_witness :
    statesOf 1 [ProvAction.startProvisioning, ProvAction.step2Actions,
      ProvAction.activate] = some [2, 3, 4] ∧
    List.Chain' (fun x y => x ≤ y ∧ y ≤ x + 1) (1 :: [2, 3, 4]) :=
  ⟨rfl, cpe_steps_monotone
    [ProvAction.startProvisioning, ProvAction.step2Actions, ProvAction.activate]
    [2, 3, 4] rfl⟩

/-- C5: the three-way classification the spec prescribes for the
predictive maintenance component's readings (computed server-side, not in
the repository sources) agrees with the classification computed by the
building asset map's `processAttribute` on the same value and thresholds,
so the two components display the same statuses; the display helpers map
that shared status. -/
theorem reading_status_agrees (a : Attr) :
    (processAttribute a).status =
      specReadingStatus a.value a.minThreshold a.maxThreshold ∧
    getReadingStatusLabel ((processAttribute a).status) =
      getReadingStatusLabel (specReadingStatus a.value a.minThreshold a.maxThreshold) ∧
    getReadingStatusClass ((processAttribute a).status) =
      getReadingStatusClass (specReadingStatus a.value a.minThreshold a.maxThreshold) := by
  have h : (processAttribute a).status =
      specReadingStatus a.value a.minThreshold a.maxThreshold := by
    unfold processAttribute specReadingStatus
    split_ifs <;> rfl
  exact ⟨h, by rw [h], by rw [h]⟩

/-- C6: in the step-2 handler's trace, the first eight events are exactly
the serial-validation body (including the `Validated` status update and
its log entries), then the fixed 500 ms delay, then exactly the
CPE-provisioning body: the two step bodies are contiguous and do not
interleave. -/
theorem step2_validation_before_provisioning (serial mac : String) :
    (handleStep2ActionsTrace serial mac).take 8 = validateSerialTrace serial mac ∧
    (handleStep2ActionsTrace serial mac)[8]? = some (PEvent.delayMs 500) ∧
    (handleStep2ActionsTrace serial mac).drop 9 = provisionCPETrace ∧
    (validateSerialTrace serial mac)[4]? = some (PEvent.setStatus "Validated") ∧
    (validateSerialTrace serial mac)[5]? =
      some (PEvent.log "Serial validated" "success") :=
  ⟨rfl, rfl, rfl, rfl, rfl⟩

/-- C7 counterexample: the `getAppointmentChain` failure in
`loadDependentAppointments` is caught but surfaced by no toast, only a
console log. -/
theorem load_chain_failure_not_toasted :
    (loadDependentAppointments (Except.error (some "Network error"))).any isToast
      = false ∧
    Effect.consoleError "Error loading dependencies:" ∈
      loadDependentAppointments (Except.error (some "Network error")) := by decide

/-- C7 amended: every remote-call failure is caught and none is retried
(each remote call occurs exactly once in the handler's effects); failures
of the user-initiated mutations (`updateRecord`, the RSO trigger,
`createPreventiveWorkPlan`) are surfaced as error toasts, while failures
of the data-loading calls (`getAppointmentChain`, the predictive-data
wire, the work-order GraphQL wire) are only logged to the console. -/
theorem remote_failures_caught_never_retried (err : Option String)
    (newStatus s0 reason : String) (rso : Except (Option String) ℕ)
    (hreason : reason ≠ "") :
    (loadDependentAppointments (Except.error err)).any isToast = false ∧
    Effect.consoleError "Error loading dependencies:" ∈
      loadDependentAppointments (Except.error err) ∧
    countRemote "getAppointmentChain" (loadDependentAppointments (Except.error err)) = 1 ∧
    (wiredData (Except.error err)).any isToast = false ∧
    Effect.consoleError "Error loading predictive data:" ∈ wiredData (Except.error err) ∧
    (handleWorkOrderResult (Except.error err)).any isToast = false ∧
    Effect.consoleError "GraphQL errors:" ∈ handleWorkOrderResult (Except.error err) ∧
    (updateAppointmentStatus newStatus (Except.error err)).any isErrorToast = true ∧
    countRemote "updateRecord" (updateAppointmentStatus newStatus (Except.error err)) = 1 ∧
    (handleConfirmBlock reason (Except.error err) rso s0).1.any isErrorToast = true ∧
    countRemote "updateRecord" (handleConfirmBlock reason (Except.error err) rso s0).1 = 1 ∧
    (handleConfirmBlock reason (Except.ok ()) (Except.error err) s0).1.any isErrorToast = true ∧
    countRemote "triggerRSOForBlockedAppointment"
      (handleConfirmBlock reason (Except.ok ()) (Except.error err) s0).1 = 1 ∧
    (createWorkPlan (Except.error err)).any isErrorToast = true ∧
    countRemote "createPreventiveWorkPlan" (createWorkPlan (Except.error err)) = 1 ∧
    Effect.consoleError "Error creating work plan:" ∈ createWorkPlan (Except.error err) := by
  simp [loadDependentAppointments, wiredData, handleWorkOrderResult,
    updateAppointmentStatus, handleConfirmBlock, createWorkPlan, hreason,
    isToast, isErrorToast, countRemote, List.filter_cons]

/-- Witness for the amended C7 theorem at a concrete failure. -/
theorem remote_failures_witness :
    (loadDependentAppointments (Except.error (some "timeout"))).any isToast = false ∧
    Effect.consoleError "Error loading dependencies:" ∈
      loadDependentAppointments (Except.error (some "timeout")) ∧
    countRemote "getAppointmentChain"
      (loadDependentAppointments (Except.error (some "timeout"))) = 1 ∧
    (wiredData (Except.error (some "timeout"))).any isToast = false ∧
    Effect.consoleError "Error loading predictive data:" ∈
      wiredData (Except.error (some "timeout")) ∧
    (handleWorkOrderResult (Except.error (some "timeout"))).any isToast = false ∧
    Effect.consoleError "GraphQL errors:" ∈
      handleWorkOrderResult (Except.error (some "timeout")) ∧
    (updateAppointmentStatus "Travel" (Except.error (some "timeout"))).any isErrorToast = true ∧
    countRemote "updateRecord"
      (updateAppointmentStatus "Travel" (Except.error (some "timeout"))) = 1 ∧
    (handleConfirmBlock "Other" (Except.error (some "timeout")) (Except.ok 2) "Travel").1.any
      isErrorToast = true ∧
    countRemote "updateRecord"
      (handleConfirmBlock "Other" (Except.error (some "timeout")) (Except.ok 2) "Travel").1 = 1 ∧
    (handleConfirmBlock "Other" (Except.ok ()) (Except.error (some "timeout")) "Travel").1.any
      isErrorToast = true ∧
    countRemote "triggerRSOForBlockedAppointment"
      (handleConfirmBlock "Other" (Except.ok ()) (Except.error (some "timeout")) "Travel").1 = 1 ∧
    (createWorkPlan (Except.error (some "timeout"))).any isErrorToast = true ∧
    countRemote "createPreventiveWorkPlan"
      (createWorkPlan (Except.error (some "timeout"))) = 1 ∧
    Effect.consoleError "Error creating work plan:" ∈
      createWorkPlan (Except.error (some "timeout")) :=
  remote_failures_caught_never_retried (some "timeout") "Travel" "Travel" "Other"
    (Except.ok 2) (by decide)

/-- C8: when the `Cannot Complete` record update succeeds and the
subsequent RSO trigger call fails, `handleConfirmBlock` surfaces an error
toast but the appointment's status remains `Cannot Complete`: the status
change is not rolled back. -/
theorem block_flow_not_atomic (reason : String) (err : Option String)
    (s0 : String) (hreason : reason ≠ "") :
    ((handleConfirmBlock reason (Except.ok ()) (Except.error err) s0).1.any
      isErrorToast = true) ∧
    (handleConfirmBlock reason (Except.ok ()) (Except.error err) s0).2 =
      "Cannot Complete" := by
  simp [handleConfirmBlock, hreason, isErrorToast]

/-- Witness for C8 at a concrete blocked appointment. -/
theorem block_flow_not_atomic_witness :
    ((handleConfirmBlock "Equipment Failure" (Except.ok ())
        (Except.error (some "RSO unavailable")) "In Progress").1.any
      isErrorToast = true) ∧
    (handleConfirmBlock "Equipment Failure" (Except.ok ())
        (Except.error (some "RSO unavailable")) "In Progress").2 =
      "Cannot Complete" :=
  block_flow_not_atomic "Equipment Failure" (some "RSO unavailable")
    "In Progress" (by decide)

set_option maxHeartbeats 2000000 in
/-- C9: in the hardcoded Haven data set, an asset's `status` is `Warning`
iff it has at least one attribute classified `warning` or `critical`, and
the Add Inspection Work Plan action proceeds exactly for those assets. -/
theorem haven_warning_iff_hasWarnings :
    ∀ a ∈ havenAssets,
      ((a.status = "Warning") ↔ hasWarnings a = true) ∧
      addInspectionWorkPlanProceeds (some a) = hasWarnings a := by
  intro a ha
  refine ⟨?_, rfl⟩
  simp only [havenAssets, List.mem_cons, List.not_mem_nil, or_false] at ha
  rcases ha with rfl | rfl | rfl | rfl | rfl | rfl | rfl | rfl | rfl | rfl | rfl | rfl | rfl | rfl | rfl <;>
    norm_num +decide [hasWarnings, warningAttributes, processAttribute, List.filter_cons]

/-- The second asset of the data set, `OLT-A01-002`, used as the witness
input for C9. -/
def sampleWarningAsset : Asset :=
  { id := "haven-olt-002", name := "OLT-A01-002", type := "Optical Line Terminal",
    status := "Warning",
    attributes :=
      [ ⟨"Temperature", 72, 10, 65, "°C", "Environmental"⟩,
        ⟨"CPU Utilization", 92, 0, 85, "%", "Performance"⟩,
        ⟨"Memory Usage", 88, 0, 90, "%", "Performance"⟩,
        ⟨"Optical Power Rx", -26.5, -28, -8, "dBm", "Signal"⟩,
        ⟨"Active PON Ports", 16, 1, 16, "ports", "Connectivity"⟩,
        ⟨"Uptime", 98.2, 99, 100, "%", "Availability"⟩ ] }

/-- Witness for C9 at the overheating OLT. -/
theorem haven_warning_witness :
    sampleWarningAsset ∈ havenAssets ∧
    (((sampleWarningAsset.status = "Warning") ↔ hasWarnings sampleWarningAsset = true) ∧
      addInspectionWorkPlanProceeds (some sampleWarningAsset) = hasWarnings sampleWarningAsset) :=
  ⟨List.mem_cons_of_mem _ (List.mem_cons_self _ _),
   haven_warning_iff_hasWarnings sampleWarningAsset
     (List.mem_cons_of_mem _ (List.mem_cons_self _ _))⟩

/-- C10: a service appointment whose status is not one of the eight
configured statuses falls back to the `None` configuration: exactly
`Scheduled` is offered as the next status and the block button is
shown. -/
theorem unknown_status_falls_back (s : String) (h : s ∉ configuredStatuses) :
    (nextStatusOptions s).map NextOption.value = ["Scheduled"] ∧
    showBlockButton s = true := by
  have hl := lookup_none_of_unconfigured s h
  simp only [configuredStatuses, List.mem_cons, List.not_mem_nil, or_false, not_or] at h
  obtain ⟨-, -, -, -, -, -, h7, h8⟩ := h
  constructor
  · rw [nextStatusOptions_values]
    simp [statusConfig, hl, noneCfg]
  · have h6 : s ≠ "Completed" := by
      intro hs; subst hs; simp [STATUS_CONFIG, List.lookup] at hl
    simp [showBlockButton, bne, beq_eq_false_iff_ne.mpr h6,
      beq_eq_false_iff_ne.mpr h7, beq_eq_false_iff_ne.mpr h8]

/-- Witness for C10 at the unconfigured status `Blocked`. -/
theorem unknown_status_falls_back_witness :
    "Blocked" ∉ configuredStatuses ∧
    ((nextStatusOptions "Blocked").map NextOption.value = ["Scheduled"] ∧
      showBlockButton "Blocked" = true) :=
  ⟨by decide, unknown_status_falls_back "Blocked" (by decide)⟩
